import Mathlib

/-!
Shallow embedding of `src/structures/tss.rs`: the 64-bit task state segment
descriptor `TaskStateSegment<N>` (generic over the I/O-permission bitmap
length `N`), its constructor `new`, the activation conversion
`ready_to_activate`, the handle type `ReadyTssPointer`, the `Default`
implementation, and the byte layout dictated by `#[repr(C, packed)]`.

Machine integers are modelled as `Nat` with explicit `% 2 ^ w` where the
source performs a narrowing cast.  Fixed-length arrays are modelled as
functions out of `Fin n`.
-/

/-- Modelled from the spec: the collaborator address value type — an opaque
64-bit canonical-address wrapper supplying a zero-address constructor
(the crate type `VirtAddr`, whose definition is not part of the provided
source tree). -/
structure VirtAddr where
  addr : Nat

/-- Modelled from the spec: the zero address (`VirtAddr::zero()`). -/
def VirtAddr.zero : VirtAddr := ⟨0⟩

/-- Byte size of one `VirtAddr`: the spec fixes it as a 64-bit (8-byte)
address value. -/
def virtAddrSize : Nat := 8

/-- The task state segment descriptor from the source
(`#[repr(C, packed)] pub struct TaskStateSegment<const N: usize>`), with
fields in declaration order.  `u32`/`u64`/`u16`/`u8` fields are `Nat`s,
the two arrays of addresses are functions out of `Fin 3` / `Fin 7`, and
the bitmap `iomap: [u8; N]` is a function out of `Fin N`. -/
structure TaskStateSegment (N : Nat) where
  reserved_1 : Nat
  privilege_stack_table : Fin 3 → VirtAddr
  reserved_2 : Nat
  interrupt_stack_table : Fin 7 → VirtAddr
  reserved_3 : Nat
  reserved_4 : Nat
  iomap_base : Nat
  iomap : Fin N → Nat
  iomap_last_byte : Nat

/-- Derive attributes on the `TaskStateSegment` declaration in the source
(line `#[derive(Debug, Clone, Copy)]`). -/
def TaskStateSegment.derivedTraits : List String := ["Debug", "Clone", "Copy"]

/-!
Field offsets under `#[repr(C, packed)]`: no alignment padding is ever
inserted, so each field's offset is the previous field's offset plus the
previous field's byte size, in declaration order.
-/

/-- Offset of `reserved_1` (`u32`, 4 bytes): the first field. -/
def reserved_1_offset : Nat := 0

/-- Offset of `privilege_stack_table` (`[VirtAddr; 3]`). -/
def privilege_stack_table_offset : Nat := reserved_1_offset + 4

/-- Offset of `reserved_2` (`u64`, 8 bytes). -/
def reserved_2_offset : Nat := privilege_stack_table_offset + 3 * virtAddrSize

/-- Offset of `interrupt_stack_table` (`[VirtAddr; 7]`). -/
def interrupt_stack_table_offset : Nat := reserved_2_offset + 8

/-- Offset of `reserved_3` (`u64`, 8 bytes). -/
def reserved_3_offset : Nat := interrupt_stack_table_offset + 7 * virtAddrSize

/-- Offset of `reserved_4` (`u16`, 2 bytes). -/
def reserved_4_offset : Nat := reserved_3_offset + 8

/-- Offset of `iomap_base` (`u16`, 2 bytes). -/
def iomap_base_offset : Nat := reserved_4_offset + 2

/-- Offset of `iomap` (`[u8; N]`), i.e. `offset_of!(Self, iomap)`. -/
def iomap_offset : Nat := iomap_base_offset + 2

/-- Offset of `iomap_last_byte` (`u8`, 1 byte). -/
def iomap_last_byte_offset (N : Nat) : Nat := iomap_offset + N

/-- Total size of `TaskStateSegment<N>` under `repr(C, packed)`: the offset
just past the last field. -/
def tssSize (N : Nat) : Nat := iomap_last_byte_offset N + 1

/-- The constructor `TaskStateSegment::<N>::new()`: zeroed stack tables and
reserved fields, `iomap_base` set to `offset_of!(Self, iomap) as u16`
(the `as u16` cast is `% 2 ^ 16`), and the bitmap plus its trailing byte
filled with `u8::MAX`. -/
def TaskStateSegment.new (N : Nat) : TaskStateSegment N where
  reserved_1 := 0
  privilege_stack_table := fun _ => VirtAddr.zero
  reserved_2 := 0
  interrupt_stack_table := fun _ => VirtAddr.zero
  reserved_3 := 0
  reserved_4 := 0
  iomap_base := iomap_offset % 2 ^ 16
  iomap := fun _ => 0xFF
  iomap_last_byte := 0xFF

/-- The handle type `ReadyTssPointer<N>(pub(crate) *mut TaskStateSegment<N>)`:
a raw pointer is modelled as the address it holds. -/
structure ReadyTssPointer (N : Nat) where
  ptr : Nat

/-- Derive attributes on the `ReadyTssPointer` declaration in the source
(line `#[derive(Debug)]`); the source derives or implements no other trait
for it. -/
def ReadyTssPointer.derivedTraits : List String := ["Debug"]

/-- A mutable view of the `iomap` field of a descriptor stored at some
address, as handed out by `ready_to_activate`: it carries the address the
raw borrow `&raw mut self.iomap` points at, and reading/writing through it
acts exactly on the `iomap` field of the underlying stored descriptor. -/
structure IomapView (N : Nat) where
  addr : Nat
  get : TaskStateSegment N → (Fin N → Nat)
  set : TaskStateSegment N → (Fin N → Nat) → TaskStateSegment N

/-- The conversion `ready_to_activate(&'static mut self)`: given the address
`a` of the descriptor's static storage, it returns the pair of the handle
`ReadyTssPointer(self)` wrapping that address and the mutable view
`&mut *(&raw mut self.iomap)` of the bitmap bytes.  The view aliases the
descriptor's own `iomap` storage: its getter reads the `iomap` field and
its setter replaces exactly the `iomap` field. -/
def TaskStateSegment.ready_to_activate {N : Nat} (a : Nat) :
    ReadyTssPointer N × IomapView N :=
  (⟨a⟩,
   { addr := a + iomap_offset
     get := fun t => t.iomap
     set := fun t m => { t with iomap := m } })

/-- The `Default` implementation for `TaskStateSegment<N>`: it calls
`Self::new()`. -/
def TaskStateSegment.default (N : Nat) : TaskStateSegment N :=
  TaskStateSegment.new N

/-! Little-endian serialization of the machine-integer fields, used to state
the byte-layout properties. -/

/-- Little-endian bytes of a `u16` value. -/
def u16le (x : Nat) : List Nat :=
  [x % 2 ^ 8, x / 2 ^ 8 % 2 ^ 8]

/-- Little-endian bytes of a `u32` value. -/
def u32le (x : Nat) : List Nat :=
  [x % 2 ^ 8, x / 2 ^ 8 % 2 ^ 8, x / 2 ^ 16 % 2 ^ 8, x / 2 ^ 24 % 2 ^ 8]

/-- Little-endian bytes of a `u64` value. -/
def u64le (x : Nat) : List Nat :=
  [x % 2 ^ 8, x / 2 ^ 8 % 2 ^ 8, x / 2 ^ 16 % 2 ^ 8, x / 2 ^ 24 % 2 ^ 8,
   x / 2 ^ 32 % 2 ^ 8, x / 2 ^ 40 % 2 ^ 8, x / 2 ^ 48 % 2 ^ 8, x / 2 ^ 56 % 2 ^ 8]

/-- Bytes of the fixed-size header of the descriptor (every field before
`iomap`), concatenated in declaration order with no padding, as
`repr(C, packed)` lays them out. -/
def TaskStateSegment.headerBytes {N : Nat} (t : TaskStateSegment N) : List Nat :=
  u32le t.reserved_1 ++
  ((u64le (t.privilege_stack_table 0).addr ++ u64le (t.privilege_stack_table 1).addr) ++
    u64le (t.privilege_stack_table 2).addr) ++
  u64le t.reserved_2 ++
  ((((((u64le (t.interrupt_stack_table 0).addr ++ u64le (t.interrupt_stack_table 1).addr) ++
    u64le (t.interrupt_stack_table 2).addr) ++ u64le (t.interrupt_stack_table 3).addr) ++
    u64le (t.interrupt_stack_table 4).addr) ++ u64le (t.interrupt_stack_table 5).addr) ++
    u64le (t.interrupt_stack_table 6).addr) ++
  u64le t.reserved_3 ++
  u16le t.reserved_4 ++
  u16le t.iomap_base

/-- The full byte image of a descriptor under `repr(C, packed)`: the header
fields, then the `N` bitmap bytes, then the trailing bitmap byte. -/
def TaskStateSegment.toBytes {N : Nat} (t : TaskStateSegment N) : List Nat :=
  t.headerBytes ++ (List.ofFn (fun i => t.iomap i % 2 ^ 8) ++ [t.iomap_last_byte % 2 ^ 8])

/-- Clearing the I/O-permission bit of one port in a bitmap, as the caller
does through the view returned by `ready_to_activate`: byte `port / 8` is
masked with the `u8` complement of `1 << (port % 8)`; all other bytes are
left as they are. -/
def clearPortBit {N : Nat} (m : Fin N → Nat) (port : Nat) : Fin N → Nat :=
  fun i => if i.val = port / 8 then m i &&& (255 ^^^ (1 <<< (port % 8))) else m i

/-- Structural validity of a descriptor, from the spec's invariants: the
stored `iomap_base` is the true offset of `iomap`, all reserved fields are
zero, the trailing bitmap byte is `0xFF`, and every bitmap byte is a byte. -/
def validDescriptor {N : Nat} (t : TaskStateSegment N) : Prop :=
  t.iomap_base = iomap_offset ∧
  t.reserved_1 = 0 ∧ t.reserved_2 = 0 ∧ t.reserved_3 = 0 ∧ t.reserved_4 = 0 ∧
  t.iomap_last_byte = 0xFF ∧
  ∀ i, t.iomap i < 2 ^ 8

/-- Helper: the header always serializes to 0x68 bytes. -/
theorem TaskStateSegment.headerBytes_length {N : Nat} (t : TaskStateSegment N) :
    t.headerBytes.length = 0x68 := by
  simp [TaskStateSegment.headerBytes, u32le, u64le, u16le]

/-- Helper: dropping the header from the byte image leaves the bitmap bytes
followed by the trailing byte. -/
theorem TaskStateSegment.toBytes_drop_header {N : Nat} (t : TaskStateSegment N) :
    t.toBytes.drop 0x68 = List.ofFn (fun i => t.iomap i % 2 ^ 8) ++ [t.iomap_last_byte % 2 ^ 8] :=
  List.drop_left' t.headerBytes_length

/-- Helper: byte masking with 254 (the u8 complement of bit 0) leaves every
bit other than bit 0 unchanged. -/
theorem testBit_and_254 (b j : Nat) (hj : j < 8) (h0 : j ≠ 0) :
    (b &&& 254).testBit j = b.testBit j := by
  rw [Nat.testBit_land]
  have h : Nat.testBit 254 j = true := by
    interval_cases j
    · exact absurd rfl h0
    all_goals decide
  rw [h, Bool.and_true]

/-- Claim C1: for every bitmap length N, the byte image of a
TaskStateSegment over N has length tssSize N, and that size equals
0x68 + N + 1 (so 0x69 bytes when N = 0). -/
theorem tss_total_size (N : Nat) (t : TaskStateSegment N) :
    t.toBytes.length = tssSize N ∧ tssSize N = 0x68 + N + 1 := by
  constructor
  · simp [TaskStateSegment.toBytes, TaskStateSegment.headerBytes, u32le, u64le, u16le,
      tssSize, iomap_last_byte_offset, iomap_offset, iomap_base_offset, reserved_4_offset,
      reserved_3_offset, interrupt_stack_table_offset, reserved_2_offset,
      privilege_stack_table_offset, reserved_1_offset, virtAddrSize]
    omega
  · rfl

/-- Claim C3: the byte offset of the iomap field is 0x68, and a freshly
constructed descriptor's iomap_base (set from that offset, cast to u16)
equals that same offset. -/
theorem iomap_offset_and_new_base (N : Nat) :
    iomap_offset = 0x68 ∧ (TaskStateSegment.new N).iomap_base = iomap_offset :=
  ⟨rfl, rfl⟩

/-- Claim C4: ready_to_activate on a descriptor stored at address a yields a
handle wrapping a, together with a mutable view located at the iomap
field's address whose reads return exactly the descriptor's iomap, whose
contents are exactly N bytes, and whose writes replace exactly the iomap
field — so a write through the view is seen by re-reading the iomap field
and a write to the field is seen through the view. -/
theorem ready_to_activate_aliasing (N a : Nat) :
    (TaskStateSegment.ready_to_activate (N := N) a).1.ptr = a ∧
    (TaskStateSegment.ready_to_activate (N := N) a).2.addr = a + iomap_offset ∧
    (∀ t : TaskStateSegment N,
      (TaskStateSegment.ready_to_activate (N := N) a).2.get t = t.iomap ∧
      (List.ofFn ((TaskStateSegment.ready_to_activate (N := N) a).2.get t)).length = N) ∧
    ∀ (t : TaskStateSegment N) (m : Fin N → Nat),
      ((TaskStateSegment.ready_to_activate (N := N) a).2.set t m).iomap = m ∧
      (TaskStateSegment.ready_to_activate (N := N) a).2.get
        ((TaskStateSegment.ready_to_activate (N := N) a).2.set t m) = m :=
  ⟨rfl, rfl, fun _ => ⟨rfl, List.length_ofFn _⟩, fun _ _ => ⟨rfl, rfl⟩⟩

/-- Claim C5: a freshly constructed descriptor has every one of the N bytes
of iomap equal to 0xFF and iomap_last_byte equal to 0xFF. -/
theorem new_deny_all (N : Nat) :
    (∀ i, (TaskStateSegment.new N).iomap i = 0xFF) ∧
    (TaskStateSegment.new N).iomap_last_byte = 0xFF :=
  ⟨fun _ => rfl, rfl⟩

/-- Claim C6: a freshly constructed descriptor has all three privilege
stack entries and all seven interrupt stack entries equal to the zero
address, and all four reserved fields equal to zero. -/
theorem new_zeroed (N : Nat) :
    (∀ i, (TaskStateSegment.new N).privilege_stack_table i = VirtAddr.zero) ∧
    (∀ i, (TaskStateSegment.new N).interrupt_stack_table i = VirtAddr.zero) ∧
    (TaskStateSegment.new N).reserved_1 = 0 ∧
    (TaskStateSegment.new N).reserved_2 = 0 ∧
    (TaskStateSegment.new N).reserved_3 = 0 ∧
    (TaskStateSegment.new N).reserved_4 = 0 :=
  ⟨fun _ => rfl, fun _ => rfl, rfl, rfl, rfl, rfl⟩

/-- Claim C10: the Default implementation returns exactly the same
descriptor value as new(). -/
theorem default_eq_new (N : Nat) :
    TaskStateSegment.default N = TaskStateSegment.new N := rfl

/-- Claim C2: the packed layout has no compiler-inserted padding — the byte
image's length is exactly the sum of the declared field sizes — and each
field's bytes sit at the hardware-dictated offset: privilege_stack_table
at 0x04, reserved_2 at 0x1C, interrupt_stack_table at 0x24, reserved_3 at
0x5C, reserved_4 at 0x64, iomap_base at 0x66, iomap at 0x68 and
iomap_last_byte at 0x68 + N. -/
theorem tss_layout (N : Nat) (t : TaskStateSegment N) :
    privilege_stack_table_offset = 0x04 ∧
    reserved_2_offset = 0x1C ∧
    interrupt_stack_table_offset = 0x24 ∧
    reserved_3_offset = 0x5C ∧
    reserved_4_offset = 0x64 ∧
    iomap_base_offset = 0x66 ∧
    iomap_offset = 0x68 ∧
    iomap_last_byte_offset N = 0x68 + N ∧
    t.toBytes.length = 4 + 3 * 8 + 8 + 7 * 8 + 8 + 2 + 2 + N + 1 ∧
    (t.toBytes.drop privilege_stack_table_offset).take (3 * 8) =
      (u64le (t.privilege_stack_table 0).addr ++ u64le (t.privilege_stack_table 1).addr) ++
        u64le (t.privilege_stack_table 2).addr ∧
    (t.toBytes.drop reserved_2_offset).take 8 = u64le t.reserved_2 ∧
    (t.toBytes.drop interrupt_stack_table_offset).take (7 * 8) =
      (((((u64le (t.interrupt_stack_table 0).addr ++ u64le (t.interrupt_stack_table 1).addr) ++
        u64le (t.interrupt_stack_table 2).addr) ++ u64le (t.interrupt_stack_table 3).addr) ++
        u64le (t.interrupt_stack_table 4).addr) ++ u64le (t.interrupt_stack_table 5).addr) ++
        u64le (t.interrupt_stack_table 6).addr ∧
    (t.toBytes.drop reserved_3_offset).take 8 = u64le t.reserved_3 ∧
    (t.toBytes.drop reserved_4_offset).take 2 = u16le t.reserved_4 ∧
    (t.toBytes.drop iomap_base_offset).take 2 = u16le t.iomap_base ∧
    (t.toBytes.drop iomap_offset).take N = List.ofFn (fun i => t.iomap i % 2 ^ 8) ∧
    t.toBytes.drop (iomap_last_byte_offset N) = [t.iomap_last_byte % 2 ^ 8] := by
  refine ⟨rfl, rfl, rfl, rfl, rfl, rfl, rfl, rfl, ?_, rfl, rfl, rfl, rfl, rfl, rfl, ?_, ?_⟩
  · simp [TaskStateSegment.toBytes, TaskStateSegment.headerBytes, u32le, u64le, u16le]
    omega
  · rw [show (t.toBytes.drop iomap_offset) =
        List.ofFn (fun i => t.iomap i % 2 ^ 8) ++ [t.iomap_last_byte % 2 ^ 8] from
      t.toBytes_drop_header]
    exact List.take_left' (List.length_ofFn _)
  · rw [show t.toBytes.drop (iomap_last_byte_offset N) = (t.toBytes.drop 0x68).drop N from
      (List.drop_drop N 0x68 t.toBytes).symm]
    rw [t.toBytes_drop_header]
    exact List.drop_left' (List.length_ofFn _)

/-- Claim C7 (amended part is not needed; stated as given): for the
descriptor over N = 8192, the total size is 0x2069 bytes, and clearing the
permission bit of port 0x3F8 through the bitmap view obtained from
ready_to_activate clears exactly bit 0x3F8 % 8 of byte 0x3F8 / 8 of iomap
while leaving every other bit of every byte of iomap unchanged. -/
theorem clear_port_bit_frame :
    tssSize 8192 = 0x2069 ∧
    (∀ (a : Nat) (t : TaskStateSegment 8192),
      Nat.testBit
        (((TaskStateSegment.ready_to_activate (N := 8192) a).2.set t
            (clearPortBit ((TaskStateSegment.ready_to_activate (N := 8192) a).2.get t)
              0x3F8)).iomap ⟨0x3F8 / 8, by norm_num⟩) (0x3F8 % 8) = false) ∧
    ∀ (a : Nat) (t : TaskStateSegment 8192) (i : Fin 8192) (j : Nat),
      j < 8 → ¬(i.val = 0x3F8 / 8 ∧ j = 0x3F8 % 8) →
      Nat.testBit
        (((TaskStateSegment.ready_to_activate (N := 8192) a).2.set t
            (clearPortBit ((TaskStateSegment.ready_to_activate (N := 8192) a).2.get t)
              0x3F8)).iomap i) j
        = Nat.testBit (t.iomap i) j := by
  have hmask : ((255 : Nat) ^^^ (1 <<< (0x3F8 % 8))) = 254 := by decide
  refine ⟨rfl, ?_, ?_⟩
  · intro a t
    show Nat.testBit (clearPortBit t.iomap 0x3F8 ⟨0x3F8 / 8, by norm_num⟩) (0x3F8 % 8) = false
    unfold clearPortBit
    rw [if_pos rfl, hmask, Nat.testBit_land,
      show Nat.testBit 254 (0x3F8 % 8) = false from by decide, Bool.and_false]
  · intro a t i j hj hne
    show Nat.testBit (clearPortBit t.iomap 0x3F8 i) j = Nat.testBit (t.iomap i) j
    unfold clearPortBit
    by_cases hi : i.val = 0x3F8 / 8
    · rw [if_pos hi, hmask]
      have hj0 : j ≠ 0 := by
        intro h0
        exact hne ⟨hi, by rw [h0]⟩
      exact testBit_and_254 _ j hj hj0
    · rw [if_neg hi]

/-- Witness for claim C7: applying the frame part at port-distinct concrete
indices (byte 0, bit 1) of a freshly constructed descriptor stored at
address 0, with both hypotheses discharged concretely. -/
theorem clear_port_bit_frame_witness :
    (1 : Nat) < 8 ∧ ¬((⟨0, by norm_num⟩ : Fin 8192).val = 0x3F8 / 8 ∧ (1 : Nat) = 0x3F8 % 8) ∧
    Nat.testBit
      (((TaskStateSegment.ready_to_activate (N := 8192) 0).2.set (TaskStateSegment.new 8192)
          (clearPortBit
            ((TaskStateSegment.ready_to_activate (N := 8192) 0).2.get (TaskStateSegment.new 8192))
            0x3F8)).iomap ⟨0, by norm_num⟩) 1
      = Nat.testBit ((TaskStateSegment.new 8192).iomap ⟨0, by norm_num⟩) 1 :=
  ⟨by decide, by decide,
    clear_port_bit_frame.2.2 0 (TaskStateSegment.new 8192) ⟨0, by norm_num⟩ 1
      (by decide) (by decide)⟩

/-- Counterexample for claim C8: the source declaration of ReadyTssPointer
derives neither Copy nor Clone (it derives only Debug), so the handle is
not a copyable value. -/
theorem readyTssPointer_not_copyable :
    ¬("Copy" ∈ ReadyTssPointer.derivedTraits ∨ "Clone" ∈ ReadyTssPointer.derivedTraits) := by
  decide

/-- Claim C8 as amended: ReadyTssPointer is not copyable — its declaration
derives only Debug, so a handle cannot be duplicated via Copy or Clone —
while a handle produced by ready_to_activate does wrap the descriptor's
own address (the descriptor type itself is the one that derives Copy). -/
theorem readyTssPointer_wraps_addr_not_copy :
    ReadyTssPointer.derivedTraits = ["Debug"] ∧
    "Copy" ∉ ReadyTssPointer.derivedTraits ∧
    "Copy" ∈ TaskStateSegment.derivedTraits ∧
    ∀ (N a : Nat), (TaskStateSegment.ready_to_activate (N := N) a).1.ptr = a :=
  ⟨rfl, by decide, by decide, fun _ _ => rfl⟩

/-- Claim C9: construction has no error conditions — new() is a total
function whose result is a structurally valid, deny-all descriptor for
every N, and ready_to_activate likewise always succeeds, returning the
handle wrapping the supplied storage address. -/
theorem construction_infallible (N : Nat) :
    validDescriptor (TaskStateSegment.new N) ∧
    (∀ i, (TaskStateSegment.new N).iomap i = 0xFF) ∧
    ∀ a : Nat, (TaskStateSegment.ready_to_activate (N := N) a).1.ptr = a := by
  refine ⟨⟨rfl, rfl, rfl, rfl, rfl, rfl, fun i => ?_⟩, fun _ => rfl, fun _ => rfl⟩
  show (0xFF : Nat) < 2 ^ 8
  norm_num
